import Mathlib

/-!
# Verification of the roland-composer sequencer core and drag manager

Shallow embedding of the reactive state logic of `createRoland808Model`
(the step-sequencer engine) and of `createDragManager` (the 3D drag layer).

Conventions of the embedding:
* The instrument key set is abstract: the engine's `createDataset` is generic
  over the keys of the `instruments` record, so the dataset is modelled as a
  function `K → Option InstrumentDataset` for an arbitrary `K` with decidable
  equality (`none` models a JS `undefined` entry).
* JS numbers stored in pattern arrays are modelled as `Int`; JS truthiness of
  an array cell is `v ≠ 0`.
* Effector `.on(trigger, handler)` store handlers become pure state-update
  functions; effect handlers that can throw (non-null assertions `!` on a
  possibly-absent bank) return `Option`, where `none` models the exception.
-/

namespace Roland

/-- Bank selector: the `AB` type, `"a" | "b"`. -/
inductive AB
  | a
  | b
deriving DecidableEq, Repr

/-- Bank mode: the `ABMode` type, `"a" | "ab" | "b"`. -/
inductive ABMode
  | a
  | ab
  | b
deriving DecidableEq, Repr

/-- The underlying string of an `AB` value (the JS value is the string itself). -/
def AB.str : AB → String
  | .a => "a"
  | .b => "b"

/-- The underlying string of an `ABMode` value. -/
def ABMode.str : ABMode → String
  | .a => "a"
  | .ab => "ab"
  | .b => "b"

/-- Modelled from the spec: the `PlayerMode` enumeration lives in
`../shared/constants`, which is not part of the provided sources. The source
guards mention the literals `"compose"`, `"play"` and `"manualPlay"`; the spec
names `"effects"` as a further mode ("e.g. effects", "mode ∉ {compose, play,
manualPlay}"). -/
inductive PlayerMode
  | compose
  | play
  | manualPlay
  | effects
deriving DecidableEq, Repr

/-- `InstrumentDataset = { a?: number[]; b?: number[] }` — both banks optional
(a partial construction override may omit one). -/
structure InstrumentDataset where
  a : Option (List Int)
  b : Option (List Int)
deriving DecidableEq, Repr

/-- `dataset[ab]`: selecting a bank array of an instrument dataset. -/
def InstrumentDataset.get (d : InstrumentDataset) : AB → Option (List Int)
  | .a => d.a
  | .b => d.b

/-- `{...d, [ab]: arr}`: replacing one bank array of an instrument dataset. -/
def InstrumentDataset.set (d : InstrumentDataset) : AB → List Int → InstrumentDataset
  | .a, arr => { d with a := some arr }
  | .b, arr => { d with b := some arr }

/-- The dataset: `Record<InstrumentsKeys, InstrumentDataset>` as a function
from the abstract key type; `none` is a JS `undefined` entry. -/
def Dataset (K : Type) : Type := K → Option InstrumentDataset

/-- `toggleNumber = (v) => (v === 0 ? 1 : 0)`. -/
def toggleNumber (v : Int) : Int := if v = 0 then 1 else 0

/-- `isOneOf(...args)(target) = args.includes(target)`. -/
def isOneOf {α : Type} [DecidableEq α] (args : List α) (target : α) : Bool :=
  args.contains target

/-- `isNotOneOf(...args)(target) = !args.includes(target)`. -/
def isNotOneOf {α : Type} [DecidableEq α] (args : List α) (target : α) : Bool :=
  !args.contains target

/-- `createInstrumentDataset`: both banks freshly filled with 16 zeros. -/
def createInstrumentDataset : InstrumentDataset :=
  { a := some (List.replicate 16 0), b := some (List.replicate 16 0) }

/-- `createDataset({instruments, initial})`: one `createInstrumentDataset()`
entry per instrument key, then `Object.assign(dataset, initial)` replaces the
whole entry for every key the partial `initial` provides. `initial = fun _ =>
none` is a call without an override. -/
def createDataset {K : Type} (initial : K → Option InstrumentDataset) : Dataset K :=
  fun key =>
    match initial key with
    | some d => some d
    | none => some createInstrumentDataset

/-- JS `list.map((v, k) => f(k, v))`, made explicit so that pointwise lemmas
can be proved by structural induction; `start` is the index of the head. -/
def mapWithIndexFrom (f : Nat → Int → Int) : Nat → List Int → List Int
  | _, [] => []
  | start, v :: rest => f start v :: mapWithIndexFrom f (start + 1) rest

/-- JS `list.map((v, k) => f(k, v))`. -/
def mapWithIndex (f : Nat → Int → Int) (l : List Int) : List Int :=
  mapWithIndexFrom f 0 l

/-- Handler of `$dataset.on(sample({instrument, ab}, toggleActiveInstrumentPad), …)`:
replace the active instrument's selected bank with a copy whose cell `pad` is
`toggleNumber`-flipped. The source reads `dataset[instrument][ab]!`, so a
missing entry or missing bank throws — modelled as `none`. -/
def toggleActiveInstrumentPadHandler {K : Type} [DecidableEq K]
    (dataset : Dataset K) (instrument : K) (ab : AB) (pad : Nat) :
    Option (Dataset K) :=
  match dataset instrument with
  | none => none
  | some entry =>
    match entry.get ab with
    | none => none
    | some arr =>
      some (fun key =>
        if key = instrument then
          some (entry.set ab
            (mapWithIndex (fun k v => if k = pad then toggleNumber v else v) arr))
        else dataset key)

/-- Handler of `$dataset.on(sample($instrument, clearPattern), …)`: the active
instrument's entry is replaced by a fresh all-zero `createInstrumentDataset()`. -/
def clearPatternHandler {K : Type} [DecidableEq K]
    (dataset : Dataset K) (instrument : K) : Dataset K :=
  fun key => if key = instrument then some createInstrumentDataset else dataset key

/-- Handler of `$dataset.on(clearTrack, …)`: `createDataset({instruments})`
with no initial override — every instrument reset to all-zero banks. -/
def clearTrackHandler {K : Type} : Dataset K :=
  createDataset (fun _ => none)

/-- Handler of `$dataset.on(sample({instrument, ab, note}, tapPressed), …)`:
`noteAdjusted = note - 1 < 0 ? 0 : note - 1` (for a `Nat`-valued step index,
truncated subtraction `note - 1` clamps at 0 identically), and the cell at
`noteAdjusted` of the active instrument's selected bank is set to 1. The
source reads `dataset[instrument][ab]!`, so absence throws — modelled as
`none`. -/
def tapPressedHandler {K : Type} [DecidableEq K]
    (dataset : Dataset K) (instrument : K) (ab : AB) (note : Nat) :
    Option (Dataset K) :=
  let noteAdjusted := note - 1
  match dataset instrument with
  | none => none
  | some entry =>
    match entry.get ab with
    | none => none
    | some arr =>
      some (fun key =>
        if key = instrument then
          some (entry.set ab
            (mapWithIndex (fun k v => if k = noteAdjusted then 1 else v) arr))
        else dataset key)

/-- `clearButtonPressed` wiring: two `guard`s with disjoint filters.
`$currentMode.map(isOneOf("compose", "play"))` routes to `clearTrack`;
`$currentMode.map(isNotOneOf("compose", "play", "manualPlay"))` routes to
`clearPattern`; when neither filter passes the dataset is untouched. The
filters are disjoint, so a sequential test is faithful. -/
def clearButtonPressedHandler {K : Type} [DecidableEq K]
    (mode : PlayerMode) (instrument : K) (dataset : Dataset K) : Dataset K :=
  if isOneOf [PlayerMode.compose, PlayerMode.play] mode then
    clearTrackHandler
  else if isNotOneOf [PlayerMode.compose, PlayerMode.play, PlayerMode.manualPlay] mode then
    clearPatternHandler dataset instrument
  else dataset

/-- Handler of `$ab.on(toggleAB, (state) => (state === "a" ? "b" : "a"))`. -/
def toggleABHandler : AB → AB
  | .a => .b
  | .b => .a

/-- The second `guard`'s filter on the `abToggled` chain:
`combine($abMode, $ab, (mode, ab) => (mode === "ab" ? true : mode !== ab))` —
the comparisons are JS string comparisons. -/
def abToggledFilter (mode : ABMode) (ab : AB) : Bool :=
  if mode.str = "ab" then true else mode.str ≠ ab.str

/-- The bank after a step-0 boundary event (`$note.updates` with `note === 0`):
`toggleAB` fires iff `abToggledFilter` holds, and `$ab.on(toggleAB)` flips. -/
def bankAfterStepZero (mode : ABMode) (ab : AB) : AB :=
  if abToggledFilter mode ab then toggleABHandler ab else ab

/-- Handler of `$note.on(fxPlay.done, (note) => (note === 15 ? 0 : note + 1))`. -/
def noteAfterPlay (note : Nat) : Nat :=
  if note = 15 then 0 else note + 1

/-- JS truthiness of `entry[ab]?.[note]`: `false` when the bank is absent or
the index is out of bounds (`undefined`), otherwise `value ≠ 0`. -/
def truthyStep (entry : InstrumentDataset) (ab : AB) (note : Nat) : Bool :=
  match entry.get ab with
  | none => false
  | some arr =>
    match arr.get? note with
    | none => false
    | some v => v ≠ 0

/-- The body of the `fxPlay` effect: `Object.entries(params.dataset).forEach`
calls `instruments[key].play()` for every entry whose `dataset[ab]?.[note]`
is truthy. `entries` is the dataset's entry list in object-key order; the
returned list is the keys whose `play()` is invoked, in invocation order.
The `substitutedInstruments` parameter is part of the effect's parameter
record (attached from `$substitutedInstruments`) and is reproduced here
exactly as in the source: it is never read by the body. -/
def fxPlayBody {K : Type} (entries : List (K × InstrumentDataset)) (ab : AB)
    (note : Nat) (substitutedInstruments : K → Option Bool) : List K :=
  (entries.filter (fun e => truthyStep e.2 ab note)).map Prod.fst

/-- The transport-relevant slice of the engine's stores. -/
structure EngineState (K : Type) where
  isRunning : Bool
  generatorRunning : Bool
  dataset : Dataset K

/-- Invoking the `start` effect: `$isRunning.on(start, () => true)` fires at
call time (an effect used as a trigger fires when called, before its promise
settles), and `forward({from: start, to: generator.start})` starts the ticker
likewise at call time. -/
def startInvoked {K : Type} (s : EngineState K) : EngineState K :=
  { s with isRunning := true, generatorRunning := true }

/-- Invoking the `stop` effect: `$isRunning.on(stop, () => false)` and
`forward({from: stop, to: generator.stop})`. -/
def stopInvoked {K : Type} (s : EngineState K) : EngineState K :=
  { s with isRunning := false, generatorRunning := false }

/-- Settling of the `start` effect's promise (`await Tone.start()` resolving
or rejecting): no store subscribes to `start.done`, `start.fail` or
`start.doneData`, so the state is unchanged either way. -/
def startSettled {K : Type} (success : Bool) (s : EngineState K) : EngineState K :=
  s

/-- `togglePlay` wiring: two `guard(sample($isRunning, togglePlay))` branches —
the pre-toggle flag routes to `stop` when `true` and to `start` when `false`. -/
def togglePlayHandler {K : Type} (s : EngineState K) : EngineState K :=
  if s.isRunning then stopInvoked s else startInvoked s

/-- The fallback array of `$activeInstrumentPads`:
`Array.from({length: 16}).map((_, k) => k)` = `[0, 1, …, 15]`. -/
def fallbackPads : List Int :=
  (List.range 16).map (fun k => (k : Int))

/-- `$activeInstrumentPads = combine($dataset, $instrument, $ab, (dataset,
instrument, ab) => dataset[instrument]?.[ab] || fallback)`. A JS array is
always truthy, so the fallback is taken exactly when the optional chain
yields `undefined` (absent entry or absent bank). -/
def activeInstrumentPads {K : Type} (dataset : Dataset K) (instrument : K)
    (ab : AB) : List Int :=
  match dataset instrument with
  | none => fallbackPads
  | some entry =>
    match entry.get ab with
    | none => fallbackPads
    | some arr => arr

/-- `$activePadLights`: a copy of the active pads where, while running, the
cell at the current note is blinked (`copy[note] = copy[note] ? 0 : 1`). -/
def activePadLights (activePads : List Int) (note : Nat) (isRunning : Bool) :
    List Int :=
  if isRunning then
    mapWithIndex (fun k v => if k = note then (if v ≠ 0 then 0 else 1) else v)
      activePads
  else activePads

/-- Well-formedness of one optional bank array: present, length 16, binary. -/
def bankWF : Option (List Int) → Bool
  | none => false
  | some arr => arr.length == 16 && arr.all (fun v => v == 0 || v == 1)

/-- Well-formedness of one instrument's dataset: both banks well-formed. -/
def instrumentWF (d : InstrumentDataset) : Bool :=
  bankWF d.a && bankWF d.b

/-- Well-formedness of one dataset entry: present and well-formed. -/
def entryWF : Option InstrumentDataset → Bool
  | none => false
  | some d => instrumentWF d

/-- The dataset invariant: every instrument key present, every bank array
exactly length 16, every value in {0, 1}. -/
def DatasetWF {K : Type} (dataset : Dataset K) : Prop :=
  ∀ key, entryWF (dataset key) = true

/-- Reading one cell of the dataset (`dataset[key]?.[bank]?.[i]`). -/
def cell {K : Type} (dataset : Dataset K) (key : K) (bank : AB) (i : Nat) :
    Option Int :=
  match dataset key with
  | none => none
  | some entry =>
    match entry.get bank with
    | none => none
    | some arr => arr.get? i

end Roland

namespace DragManager

/-- `config.threshold || 35`: `undefined` (and the falsy number 0) fall back
to the default threshold 35. -/
def thresholdOrDefault : Option ℚ → ℚ
  | none => 35
  | some t => if t = 0 then 35 else t

/-- The `onDrag` handler installed by `registerRangeDragControl`: with
`base = range[1]`, `newValue = Math.round(base - cache - distance / threshold)`,
the result passed to `config.handler` is
`base - (newValue > maxValue ? maxValue : newValue <= range[0] ? range[0] : newValue)`
where `maxValue = base`. `Math.round` (round half toward +∞) is `round`. -/
def rangeOnDrag (rmin rmax : ℚ) (threshold : Option ℚ) (cache distance : ℚ) : ℚ :=
  let base := rmax
  let t := thresholdOrDefault threshold
  let newValue : ℚ := ((round (base - cache - distance / t) : ℤ) : ℚ)
  let maxValue := base
  base - (if newValue > maxValue then maxValue
          else if newValue ≤ rmin then rmin
          else newValue)

end DragManager

namespace Roland

/-- A small concrete instrument-key type used to instantiate the generic
engine state in concrete evaluations. -/
inductive WKey
  | bassDrum
  | lowTom
deriving DecidableEq, Repr

/-- The dataset produced by engine construction with no initial override. -/
def exInitDataset : Dataset WKey :=
  createDataset (fun _ => none)

/-- The engine's transport state right after construction: not running. -/
def initEngineState : EngineState WKey :=
  { isRunning := false, generatorRunning := false, dataset := exInitDataset }

/-- An instrument dataset whose bank `a` has step 0 set. -/
def stepZeroOnDataset : InstrumentDataset :=
  { a := some (1 :: List.replicate 15 0), b := some (List.replicate 16 0) }

/-- A malformed construction override: `lowTom` gets a length-1, non-binary
bank `a` and no bank `b` (permitted by the `Partial<InstrumentsSetDataset>`
parameter type of `createRoland808Model`). -/
def badInit : WKey → Option InstrumentDataset :=
  fun key => if key = WKey.lowTom then some { a := some [5], b := none } else none

/-- A partial construction override omitting bank `b` of `lowTom`. -/
def partialInit : WKey → Option InstrumentDataset :=
  fun key =>
    if key = WKey.lowTom then some { a := some (List.replicate 16 0), b := none }
    else none

/-- The dataset produced by construction with `partialInit`. -/
def partialDataset : Dataset WKey :=
  createDataset partialInit

/-- The concrete dataset obtained by toggling pad 3 of `lowTom`, bank `a`,
starting from `exInitDataset`. -/
def exToggledDataset : Dataset WKey :=
  fun key =>
    if key = WKey.lowTom then
      some (createInstrumentDataset.set AB.a
        (mapWithIndex (fun k v => if k = 3 then toggleNumber v else v)
          (List.replicate 16 0)))
    else exInitDataset key

theorem length_mapWithIndexFrom (f : Nat → Int → Int) (l : List Int) :
    ∀ start, (mapWithIndexFrom f start l).length = l.length := by
  induction l with
  | nil => intro start; rfl
  | cons v rest ih => intro start; simp [mapWithIndexFrom, ih]

theorem length_mapWithIndex (f : Nat → Int → Int) (l : List Int) :
    (mapWithIndex f l).length = l.length :=
  length_mapWithIndexFrom f l 0

theorem get?_mapWithIndexFrom (f : Nat → Int → Int) (l : List Int) :
    ∀ start i, (mapWithIndexFrom f start l).get? i =
      (l.get? i).map (fun v => f (start + i) v) := by
  induction l with
  | nil => intro start i; simp [mapWithIndexFrom]
  | cons v rest ih =>
    intro start i
    cases i with
    | zero => simp [mapWithIndexFrom]
    | succ n =>
      have h : start + (n + 1) = (start + 1) + n := by omega
      show (mapWithIndexFrom f (start + 1) rest).get? n =
        (rest.get? n).map (fun v => f (start + (n + 1)) v)
      rw [h]
      exact ih (start + 1) n

theorem get?_mapWithIndex (f : Nat → Int → Int) (l : List Int) (i : Nat) :
    (mapWithIndex f l).get? i = (l.get? i).map (fun v => f i v) := by
  simpa using get?_mapWithIndexFrom f l 0 i

theorem getElem?_mapWithIndex (f : Nat → Int → Int) (l : List Int) (i : Nat) :
    (mapWithIndex f l)[i]? = l[i]?.map (fun v => f i v) := by
  simpa [List.get?_eq_getElem?] using get?_mapWithIndex f l i

theorem forall_mem_mapWithIndexFrom (f : Nat → Int → Int) (p : Int → Prop)
    (hf : ∀ j w, p w → p (f j w)) (l : List Int) :
    ∀ start, (∀ v ∈ l, p v) → ∀ v ∈ mapWithIndexFrom f start l, p v := by
  induction l with
  | nil => intro start _ v hv; simp [mapWithIndexFrom] at hv
  | cons w rest ih =>
    intro start h v hv
    simp only [mapWithIndexFrom, List.mem_cons] at hv
    rcases hv with rfl | hv
    · exact hf start w (h w (by simp))
    · exact ih (start + 1) (fun x hx => h x (by simp [hx])) v hv

theorem forall_mem_mapWithIndex (f : Nat → Int → Int) (p : Int → Prop)
    (hf : ∀ j w, p w → p (f j w)) (l : List Int) (h : ∀ v ∈ l, p v) :
    ∀ v ∈ mapWithIndex f l, p v :=
  forall_mem_mapWithIndexFrom f p hf l 0 h

theorem InstrumentDataset.get_set_same (d : InstrumentDataset) (ab : AB)
    (arr : List Int) : (d.set ab arr).get ab = some arr := by
  cases ab <;> rfl

theorem InstrumentDataset.get_set_ne (d : InstrumentDataset) {ab bank : AB}
    (arr : List Int) (h : bank ≠ ab) : (d.set ab arr).get bank = d.get bank := by
  cases ab <;> cases bank <;> first
    | rfl
    | exact absurd rfl h

theorem bankWF_some_iff {arr : List Int} :
    bankWF (some arr) = true ↔ arr.length = 16 ∧ ∀ v ∈ arr, v = 0 ∨ v = 1 := by
  simp [bankWF]

theorem bankWF_elim {o : Option (List Int)} (h : bankWF o = true) :
    ∃ arr, o = some arr ∧ arr.length = 16 ∧ ∀ v ∈ arr, v = 0 ∨ v = 1 := by
  cases o with
  | none => simp [bankWF] at h
  | some arr =>
    obtain ⟨h1, h2⟩ := bankWF_some_iff.1 h
    exact ⟨arr, rfl, h1, h2⟩

theorem toggleNumber_binary (v : Int) : toggleNumber v = 0 ∨ toggleNumber v = 1 := by
  by_cases h : v = 0 <;> simp [toggleNumber, h]

theorem entryWF_elim {o : Option InstrumentDataset} (h : entryWF o = true) :
    ∃ d, o = some d ∧ instrumentWF d = true := by
  cases o with
  | none => simp [entryWF] at h
  | some d => exact ⟨d, rfl, h⟩

theorem instrumentWF_get {d : InstrumentDataset} (h : instrumentWF d = true)
    (ab : AB) : bankWF (d.get ab) = true := by
  rw [instrumentWF, Bool.and_eq_true] at h
  cases ab with
  | a => exact h.1
  | b => exact h.2

theorem instrumentWF_set {d : InstrumentDataset} (hd : instrumentWF d = true)
    (ab : AB) {arr : List Int} (hlen : arr.length = 16)
    (hbin : ∀ v ∈ arr, v = 0 ∨ v = 1) :
    instrumentWF (d.set ab arr) = true := by
  have hb : bankWF (some arr) = true := bankWF_some_iff.2 ⟨hlen, hbin⟩
  rw [instrumentWF, Bool.and_eq_true] at hd
  cases ab with
  | a =>
    rw [InstrumentDataset.set, instrumentWF, Bool.and_eq_true]
    exact ⟨hb, hd.2⟩
  | b =>
    rw [InstrumentDataset.set, instrumentWF, Bool.and_eq_true]
    exact ⟨hd.1, hb⟩

theorem datasetWF_update {K : Type} [DecidableEq K] {dataset : Dataset K}
    (hwf : DatasetWF dataset) (instrument : K) {newEntry : InstrumentDataset}
    (hnew : instrumentWF newEntry = true) :
    DatasetWF (fun key =>
      if key = instrument then some newEntry else dataset key) := by
  intro key
  by_cases hk : key = instrument
  · simpa [hk, entryWF] using hnew
  · simpa [hk] using hwf key

theorem toggleHandler_eq {K : Type} [DecidableEq K] (dataset : Dataset K)
    (instrument : K) (ab : AB) (pad : Nat) {entry : InstrumentDataset}
    {arr : List Int} (he : dataset instrument = some entry)
    (ha : entry.get ab = some arr) :
    toggleActiveInstrumentPadHandler dataset instrument ab pad =
      some (fun key =>
        if key = instrument then
          some (entry.set ab
            (mapWithIndex (fun k v => if k = pad then toggleNumber v else v) arr))
        else dataset key) := by
  simp [toggleActiveInstrumentPadHandler, he, ha]

theorem tapHandler_eq {K : Type} [DecidableEq K] (dataset : Dataset K)
    (instrument : K) (ab : AB) (note : Nat) {entry : InstrumentDataset}
    {arr : List Int} (he : dataset instrument = some entry)
    (ha : entry.get ab = some arr) :
    tapPressedHandler dataset instrument ab note =
      some (fun key =>
        if key = instrument then
          some (entry.set ab
            (mapWithIndex (fun k v => if k = note - 1 then 1 else v) arr))
        else dataset key) := by
  simp [tapPressedHandler, he, ha]

theorem cell_update {K : Type} [DecidableEq K] (dataset : Dataset K)
    (instrument : K) (ab : AB) (entry : InstrumentDataset)
    (f : Nat → Int → Int) (arr : List Int) (pad : Nat)
    (he : dataset instrument = some entry) (ha : entry.get ab = some arr)
    (hf : ∀ i v, i ≠ pad → f i v = v) :
    ∀ key bank i, ¬(key = instrument ∧ bank = ab ∧ i = pad) →
      cell (fun k =>
          if k = instrument then some (entry.set ab (mapWithIndex f arr))
          else dataset k) key bank i =
        cell dataset key bank i := by
  intro key bank i hne
  by_cases hk : key = instrument
  · subst hk
    by_cases hb : bank = ab
    · subst hb
      have hip : i ≠ pad := fun hi => hne ⟨rfl, rfl, hi⟩
      simp [cell, he, ha, InstrumentDataset.get_set_same, getElem?_mapWithIndex]
      cases harr : arr[i]? with
      | none => simp [harr]
      | some v => simp [harr, hf i v hip]
    · simp [cell, he, InstrumentDataset.get_set_ne _ _ hb]
  · simp [cell, hk]

theorem toggle_spec {K : Type} [DecidableEq K] (dataset : Dataset K)
    (instrument : K) (ab : AB) (pad : Nat) {entry : InstrumentDataset}
    {arr : List Int} (he : dataset instrument = some entry)
    (ha : entry.get ab = some arr) :
    ∃ d₁, toggleActiveInstrumentPadHandler dataset instrument ab pad = some d₁ ∧
      d₁ instrument =
        some (entry.set ab
          (mapWithIndex (fun k v => if k = pad then toggleNumber v else v) arr)) ∧
      cell d₁ instrument ab pad = arr[pad]?.map toggleNumber ∧
      (∀ key bank i, ¬(key = instrument ∧ bank = ab ∧ i = pad) →
        cell d₁ key bank i = cell dataset key bank i) := by
  refine ⟨_, toggleHandler_eq dataset instrument ab pad he ha, by simp, ?_, ?_⟩
  · simp [cell, InstrumentDataset.get_set_same, getElem?_mapWithIndex]
  · exact cell_update dataset instrument ab entry _ arr pad he ha
      (fun i v hi => by simp [hi])

/-- Claim C1, counterexample: starting the transport from the Stopped state
(`togglePlay` routes to the `start` effect) and letting the audio warm-up
fail does not leave the running flag `false`: `$isRunning.on(start, () =>
true)` fires when the effect is called, before the promise settles, so after
a failed warm-up the flag is `true` — the claim "if the warm-up fails, the
running flag stays false" is false on the code. -/
theorem c1_counterexample :
    ¬ ((startSettled false (togglePlayHandler initEngineState)).isRunning = false) := by
  decide

/-- Claim C1 (amended): the running flag flips to `true` at the moment the
`start` effect is invoked (optimistically), not upon confirmed success of the
audio-engine warm-up; it remains `true` even when the warm-up fails. No
pattern state is changed by the start invocation or by the warm-up outcome. -/
theorem c1_running_flag_optimistic {K : Type} (s : EngineState K)
    (success : Bool) (h : s.isRunning = false) :
    togglePlayHandler s = startInvoked s ∧
    (startSettled success (startInvoked s)).isRunning = true ∧
    (startSettled success (startInvoked s)).dataset = s.dataset := by
  refine ⟨?_, rfl, rfl⟩
  simp [togglePlayHandler, h]

/-- Claim C1 witness: the amended statement at the freshly constructed
transport state and a failing warm-up. -/
theorem c1_witness :
    togglePlayHandler initEngineState = startInvoked initEngineState ∧
    (startSettled false (startInvoked initEngineState)).isRunning = true ∧
    (startSettled false (startInvoked initEngineState)).dataset =
      initEngineState.dataset :=
  c1_running_flag_optimistic initEngineState false rfl

/-- Claim C2, code bug: the `fxPlay` effect receives
`substitutedInstruments` in its parameter record (attached from
`$substitutedInstruments`) but its body never reads it, so an instrument
whose mute/substitute flag is set is still triggered whenever its bank value
at the current step is truthy. At the failing input — `lowTom` with step 0
set in bank `a`, current note 0, and `lowTom`'s flag `true` — `play()` is
invoked, and the output is independent of the flags altogether. -/
theorem c2_mute_flag_ignored :
    fxPlayBody [(WKey.lowTom, stepZeroOnDataset)] AB.a 0 (fun _ => some true) =
      [WKey.lowTom] ∧
    ∀ subs subs' : WKey → Option Bool,
      fxPlayBody [(WKey.lowTom, stepZeroOnDataset)] AB.a 0 subs =
        fxPlayBody [(WKey.lowTom, stepZeroOnDataset)] AB.a 0 subs' :=
  ⟨rfl, fun _ _ => rfl⟩

/-- Claim C3: clear semantics gated by player mode. With mode ∈ {compose,
play}, `clearTrack` resets every instrument's both banks to all-zero
16-arrays; with mode = manualPlay neither guard fires and the dataset is
unchanged; with any other mode (effects) `clearPattern` resets only the
active instrument's both banks and leaves every other instrument untouched. -/
theorem c3_clear_semantics {K : Type} [DecidableEq K] (mode : PlayerMode)
    (instrument : K) (dataset : Dataset K) :
    createInstrumentDataset =
      { a := some (List.replicate 16 0), b := some (List.replicate 16 0) } ∧
    ((mode = PlayerMode.compose ∨ mode = PlayerMode.play) →
      ∀ key, clearButtonPressedHandler mode instrument dataset key =
        some createInstrumentDataset) ∧
    (mode = PlayerMode.manualPlay →
      ∀ key, clearButtonPressedHandler mode instrument dataset key = dataset key) ∧
    (mode ≠ PlayerMode.compose → mode ≠ PlayerMode.play →
      mode ≠ PlayerMode.manualPlay →
      clearButtonPressedHandler mode instrument dataset instrument =
        some createInstrumentDataset ∧
      ∀ key, key ≠ instrument →
        clearButtonPressedHandler mode instrument dataset key = dataset key) := by
  refine ⟨rfl, ?_, ?_, ?_⟩
  · rintro (rfl | rfl) key <;> rfl
  · rintro rfl key; rfl
  · intro h1 h2 h3
    cases mode with
    | compose => exact absurd rfl h1
    | play => exact absurd rfl h2
    | manualPlay => exact absurd rfl h3
    | effects =>
      constructor
      · simp [clearButtonPressedHandler, isOneOf, isNotOneOf, clearPatternHandler]
      · intro key hk
        simp [clearButtonPressedHandler, isOneOf, isNotOneOf,
          clearPatternHandler, hk]

/-- Claim C3 witness: clearing in `effects` mode resets the active
instrument's entry. -/
theorem c3_witness :
    clearButtonPressedHandler PlayerMode.effects WKey.lowTom exInitDataset
      WKey.lowTom = some createInstrumentDataset :=
  ((c3_clear_semantics PlayerMode.effects WKey.lowTom exInitDataset).2.2.2
    (by decide) (by decide) (by decide)).1

/-- Claim C4: characterization of the bank after a step-0 boundary event, for
every bank mode and current bank: the new bank is `a` iff mode is `"a"` or
(mode is `"ab"` and the old bank is `"b"`); the new bank is `b` iff mode is
`"b"` or (mode is `"ab"` and the old bank is `"a"`); the bank is unchanged
iff mode equals the old bank and mode is not `"ab"`. -/
theorem c4_bank_switch_characterization :
    ∀ (m : ABMode) (bank : AB),
      (bankAfterStepZero m bank = AB.a ↔
        (m = ABMode.a ∨ (m = ABMode.ab ∧ bank = AB.b))) ∧
      (bankAfterStepZero m bank = AB.b ↔
        (m = ABMode.b ∨ (m = ABMode.ab ∧ bank = AB.a))) ∧
      (bankAfterStepZero m bank = bank ↔
        (m.str = bank.str ∧ m ≠ ABMode.ab)) := by
  intro m bank
  cases m <;> cases bank <;> decide

/-- Claim C5: for every step index `s` in [0, 15], the handler of
`$note.on(fxPlay.done)` — which runs exactly once per completed
instrument-trigger cycle — advances the playback position to `(s + 1) % 16`:
15 wraps to 0 and every other `s` advances to `s + 1`. -/
theorem c5_note_advance (s : Nat) (h : s ≤ 15) :
    noteAfterPlay s = (s + 1) % 16 := by
  rcases Nat.lt_or_ge s 15 with hlt | hge
  · have hne : s ≠ 15 := Nat.ne_of_lt hlt
    have hmod : (s + 1) % 16 = s + 1 := Nat.mod_eq_of_lt (by omega)
    simp [noteAfterPlay, hne, hmod]
  · have hs : s = 15 := le_antisymm h hge
    subst hs; rfl

/-- Claim C5 witness: the wrap-around step, 15 → 0. -/
theorem c5_witness : noteAfterPlay 15 = (15 + 1) % 16 :=
  c5_note_advance 15 (by decide)

/-- Claim C6: for every well-formed dataset, pad index `p < 16`, selected
instrument and bank, toggling the pad twice returns the cell at `p` to its
original value, and each single toggle leaves every other cell of every
instrument/bank array unchanged. -/
theorem c6_double_toggle {K : Type} [DecidableEq K] (dataset : Dataset K)
    (instrument : K) (ab : AB) (pad : Nat)
    (hwf : DatasetWF dataset) (hpad : pad < 16) :
    ∃ d₁ d₂,
      toggleActiveInstrumentPadHandler dataset instrument ab pad = some d₁ ∧
      toggleActiveInstrumentPadHandler d₁ instrument ab pad = some d₂ ∧
      cell d₂ instrument ab pad = cell dataset instrument ab pad ∧
      (∀ key bank i, ¬(key = instrument ∧ bank = ab ∧ i = pad) →
        cell d₁ key bank i = cell dataset key bank i) ∧
      (∀ key bank i, ¬(key = instrument ∧ bank = ab ∧ i = pad) →
        cell d₂ key bank i = cell d₁ key bank i) := by
  obtain ⟨entry, he, hewf⟩ := entryWF_elim (hwf instrument)
  obtain ⟨arr, ha, hlen, hbin⟩ := bankWF_elim (instrumentWF_get hewf ab)
  obtain ⟨d₁, hEq1, hd₁i, _, hunch1⟩ := toggle_spec dataset instrument ab pad he ha
  obtain ⟨d₂, hEq2, _, hcell2, hunch2⟩ :=
    toggle_spec d₁ instrument ab pad hd₁i (InstrumentDataset.get_set_same entry ab _)
  refine ⟨d₁, d₂, hEq1, hEq2, ?_, hunch1, hunch2⟩
  have hv : pad < arr.length := by omega
  have hvv : arr[pad]? = some arr[pad] := List.getElem?_eq_getElem hv
  have hbv : arr[pad] = 0 ∨ arr[pad] = 1 := hbin _ (List.getElem_mem hv)
  have hcds : cell dataset instrument ab pad = arr[pad]? := by
    simp [cell, he, ha]
  rw [hcell2, getElem?_mapWithIndex, hvv, hcds, hvv]
  rcases hbv with h0 | h0 <;> simp [h0, toggleNumber]

/-- Claim C6 witness: double-toggling pad 3 of `lowTom`, bank `a`, on the
freshly constructed dataset. -/
theorem c6_witness :
    ∃ d₁ d₂,
      toggleActiveInstrumentPadHandler exInitDataset WKey.lowTom AB.a 3 = some d₁ ∧
      toggleActiveInstrumentPadHandler d₁ WKey.lowTom AB.a 3 = some d₂ ∧
      cell d₂ WKey.lowTom AB.a 3 = cell exInitDataset WKey.lowTom AB.a 3 ∧
      (∀ key bank i, ¬(key = WKey.lowTom ∧ bank = AB.a ∧ i = 3) →
        cell d₁ key bank i = cell exInitDataset key bank i) ∧
      (∀ key bank i, ¬(key = WKey.lowTom ∧ bank = AB.a ∧ i = 3) →
        cell d₂ key bank i = cell d₁ key bank i) :=
  c6_double_toggle exInitDataset WKey.lowTom AB.a 3
    (fun key => by cases key <;> rfl) (by decide)

/-- Claim C7, counterexample: engine construction accepts an arbitrary
partial initial override (`config.dataset : Partial<InstrumentsSetDataset>`);
the claim "the dataset invariant holds after engine construction" fails at
the concrete override giving `lowTom` a length-1, non-binary bank `a` and no
bank `b`. -/
theorem c7_counterexample : ¬ DatasetWF (createDataset badInit) := by
  intro h
  have hlow := h WKey.lowTom
  simp [createDataset, badInit, entryWF, instrumentWF, bankWF] at hlow

/-- Claim C7 (amended): the dataset invariant — every instrument key present,
every bank array exactly length 16, every value in {0, 1} — holds after
engine construction with no initial override (and with any override whose
per-instrument data is itself well-formed), and is preserved by every
dataset-mutating operation (pad toggle, tapPressed, clearPattern, clearTrack)
starting from any well-formed state; an arbitrary malformed override can
violate it. -/
theorem c7_invariant (K : Type) [DecidableEq K] :
    DatasetWF (clearTrackHandler : Dataset K) ∧
    (∀ initial : K → Option InstrumentDataset,
      (∀ key d, initial key = some d → instrumentWF d = true) →
      DatasetWF (createDataset initial)) ∧
    (∀ (dataset : Dataset K) instrument ab pad d₁,
      DatasetWF dataset →
      toggleActiveInstrumentPadHandler dataset instrument ab pad = some d₁ →
      DatasetWF d₁) ∧
    (∀ (dataset : Dataset K) instrument ab note d₁,
      DatasetWF dataset →
      tapPressedHandler dataset instrument ab note = some d₁ →
      DatasetWF d₁) ∧
    (∀ (dataset : Dataset K) instrument,
      DatasetWF dataset → DatasetWF (clearPatternHandler dataset instrument)) := by
  refine ⟨?_, ?_, ?_, ?_, ?_⟩
  · intro key; rfl
  · intro initial hinit key
    cases hi : initial key with
    | none => simp only [createDataset, hi]; rfl
    | some d => simpa only [createDataset, hi, entryWF] using hinit key d hi
  · intro dataset instrument ab pad d₁ hwf heq
    obtain ⟨entry, he, hewf⟩ := entryWF_elim (hwf instrument)
    obtain ⟨arr, ha, hlen, hbin⟩ := bankWF_elim (instrumentWF_get hewf ab)
    rw [toggleHandler_eq dataset instrument ab pad he ha] at heq
    have hd := Option.some.inj heq
    subst hd
    apply datasetWF_update hwf instrument
    apply instrumentWF_set hewf ab
    · rw [length_mapWithIndex]; exact hlen
    · refine forall_mem_mapWithIndex _ _ ?_ arr hbin
      intro j w hw
      by_cases hj : j = pad
      · simpa [hj] using toggleNumber_binary w
      · simpa [hj] using hw
  · intro dataset instrument ab note d₁ hwf heq
    obtain ⟨entry, he, hewf⟩ := entryWF_elim (hwf instrument)
    obtain ⟨arr, ha, hlen, hbin⟩ := bankWF_elim (instrumentWF_get hewf ab)
    rw [tapHandler_eq dataset instrument ab note he ha] at heq
    have hd := Option.some.inj heq
    subst hd
    apply datasetWF_update hwf instrument
    apply instrumentWF_set hewf ab
    · rw [length_mapWithIndex]; exact hlen
    · refine forall_mem_mapWithIndex _ _ ?_ arr hbin
      intro j w hw
      by_cases hj : j = note - 1
      · simp [hj]
      · simpa [hj] using hw
  · intro dataset instrument hwf
    exact datasetWF_update hwf instrument (by decide)

/-- Claim C7 witness: the toggled dataset obtained from the default
construction is still well-formed at `lowTom`. -/
theorem c7_witness : entryWF (exToggledDataset WKey.lowTom) = true :=
  (c7_invariant WKey).2.2.1 exInitDataset WKey.lowTom AB.a 3 exToggledDataset
    (fun key => by cases key <;> rfl) rfl WKey.lowTom

/-- Claim C9: for every well-formed dataset and current step `note ≤ 15`,
`tapPressed` sets the cell at `note - 1` (truncated subtraction: at step 0
it sets cell 0, never cell −1) of the active instrument's selected bank to 1
and leaves every other cell of that array and of every other instrument's
arrays unchanged. -/
theorem c9_tap_pressed {K : Type} [DecidableEq K] (dataset : Dataset K)
    (instrument : K) (ab : AB) (note : Nat)
    (hwf : DatasetWF dataset) (hnote : note ≤ 15) :
    ∃ d₁, tapPressedHandler dataset instrument ab note = some d₁ ∧
      cell d₁ instrument ab (note - 1) = some 1 ∧
      (∀ key bank i, ¬(key = instrument ∧ bank = ab ∧ i = note - 1) →
        cell d₁ key bank i = cell dataset key bank i) := by
  obtain ⟨entry, he, hewf⟩ := entryWF_elim (hwf instrument)
  obtain ⟨arr, ha, hlen, hbin⟩ := bankWF_elim (instrumentWF_get hewf ab)
  refine ⟨_, tapHandler_eq dataset instrument ab note he ha, ?_, ?_⟩
  · have hv : note - 1 < arr.length := by omega
    have hvv : arr[note - 1]? = some arr[note - 1] := List.getElem?_eq_getElem hv
    simp [cell, InstrumentDataset.get_set_same, getElem?_mapWithIndex, hvv]
  · exact cell_update dataset instrument ab entry _ arr (note - 1) he ha
      (fun i v hi => by simp [hi])

/-- Claim C9 witness: tapping at step 0 on the freshly constructed dataset
sets cell 0 of `lowTom`'s bank `a`. -/
theorem c9_witness :
    ∃ d₁, tapPressedHandler exInitDataset WKey.lowTom AB.a 0 = some d₁ ∧
      cell d₁ WKey.lowTom AB.a (0 - 1) = some 1 ∧
      (∀ key bank i, ¬(key = WKey.lowTom ∧ bank = AB.a ∧ i = 0 - 1) →
        cell d₁ key bank i = cell exInitDataset key bank i) :=
  c9_tap_pressed exInitDataset WKey.lowTom AB.a 0
    (fun key => by cases key <;> rfl) (by decide)

/-- Claim C10: when the dataset entry of the active instrument, or its
selected bank, is absent (e.g. after a partial construction override omitting
a bank), `$activeInstrumentPads` falls back to the 16-element index array
`[0, 1, 2, …, 15]` rather than an all-zero pattern, and `$activePadLights`
(not running) shows the same fallback. -/
theorem c10_pads_fallback {K : Type} (dataset : Dataset K) (instrument : K)
    (ab : AB)
    (h : dataset instrument = none ∨
      ∃ entry, dataset instrument = some entry ∧ entry.get ab = none) :
    activeInstrumentPads dataset instrument ab =
      [0, 1, 2, 3, 4, 5, 6, 7, 8, 9, 10, 11, 12, 13, 14, 15] ∧
    activePadLights (activeInstrumentPads dataset instrument ab) 0 false =
      [0, 1, 2, 3, 4, 5, 6, 7, 8, 9, 10, 11, 12, 13, 14, 15] := by
  have hfb : fallbackPads =
      [0, 1, 2, 3, 4, 5, 6, 7, 8, 9, 10, 11, 12, 13, 14, 15] := rfl
  rcases h with hnone | ⟨entry, he, hb⟩
  · constructor <;> simp [activeInstrumentPads, hnone, activePadLights, hfb]
  · constructor <;> simp [activeInstrumentPads, he, hb, activePadLights, hfb]

/-- Claim C10 witness: a construction override omitting `lowTom`'s bank `b`
makes the projection fall back to the index array. -/
theorem c10_witness :
    activeInstrumentPads partialDataset WKey.lowTom AB.b =
      [0, 1, 2, 3, 4, 5, 6, 7, 8, 9, 10, 11, 12, 13, 14, 15] :=
  (c10_pads_fallback partialDataset WKey.lowTom AB.b (Or.inr ⟨_, rfl, rfl⟩)).1

end Roland

namespace DragManager

/-- Claim C8, counterexample: for the range [10, 20], default threshold,
drag-start cache 10 and drag distance −350, the rounded-and-clamped
intermediate is 20 and the value passed to the handler is `20 − 20 = 0`,
which lies outside [10, 20] — the claim "the value passed to the registered
handler lies within [min, max]" is false on the code. -/
theorem c8_counterexample :
    rangeOnDrag 10 20 none 10 (-350) = 0 ∧
    ¬ (10 ≤ rangeOnDrag 10 20 none 10 (-350)) := by
  constructor
  · norm_num [rangeOnDrag, thresholdOrDefault, round_eq]
  · norm_num [rangeOnDrag, thresholdOrDefault, round_eq]

/-- Claim C8 (amended): the delta is rounded to the nearest integer and the
rounded intermediate is clamped to the nearest bound of [min, max] rather
than wrapping, but the value passed to the registered handler is `max` minus
the clamped intermediate, so for every range with min ≤ max and every drag
distance it lies within [0, max − min] (which coincides with [min, max] only
when min = 0), not within [min, max] in general. -/
theorem c8_range_drag_bounds (rmin rmax cache distance : ℚ)
    (threshold : Option ℚ) (h : rmin ≤ rmax) :
    0 ≤ rangeOnDrag rmin rmax threshold cache distance ∧
    rangeOnDrag rmin rmax threshold cache distance ≤ rmax - rmin := by
  simp only [rangeOnDrag]
  split_ifs with h1 h2
  · constructor <;> linarith
  · constructor <;> linarith
  · constructor <;> linarith

/-- Claim C8 witness: the amended bounds at range [10, 20], threshold 35,
cache 12, distance 100. -/
theorem c8_witness :
    0 ≤ rangeOnDrag 10 20 (some 35) 12 100 ∧
    rangeOnDrag 10 20 (some 35) 12 100 ≤ 20 - 10 :=
  c8_range_drag_bounds 10 20 12 100 (some 35) (by norm_num)

end DragManager
